import Mathlib

/-!
Shallow embedding of the WUP-028 USB GameCube adapter driver (src/main.c and
src/include/rvl/Pad.h) and proofs about the properties claimed of it.

Machine integers are modelled as Nat (unsigned) and Int (signed) with explicit
reductions modulo 2^8 / 2^32 at exactly the points where the C code's fixed
width types truncate.  Arrays indexed by controller slot or circular-buffer
row are modelled as total functions out of Nat; the C code only ever reads and
writes the in-range indices, and every operation below touches exactly the
indices the source touches.
-/

namespace Wup028

/-- GCN_CONTROLLER_COUNT (main.c line 67). -/
def GCN_CONTROLLER_COUNT : Nat := 4

/-- GCN_TRIGGER_THRESHOLD (main.c line 69): L and R slider "pressed" level. -/
def GCN_TRIGGER_THRESHOLD : Nat := 170

/-- GCN_TIMEOUT (main.c lines 71-72): 1500 ms expressed in time-base units,
with (ms) = * (243000/4). -/
def GCN_TIMEOUT : Nat := 1500 * (243000 / 4)

/-- RUMBLE_BUFFER (main.c line 81): size of the rumble circular buffer. -/
def RUMBLE_BUFFER : Nat := 16

/-- RUMBLE_DELAY (main.c line 83): polls to wait before giving up on an
outstanding rumble command. -/
def RUMBLE_DELAY : Nat := 3

/-- WUP_028_ID (main.c line 77): vendor and product id of the adapter. -/
def WUP_028_ID : Nat := 0x057e0337

/-- WUP_028_DESCRIPTOR_SIZE (main.c line 235). -/
def WUP_028_DESCRIPTOR_SIZE : Nat := 0x44

/-- DEV_USB_HID4_DEVICE_CHANGE_SIZE (main.c line 240), in 32-bit words. -/
def DEV_USB_HID4_DEVICE_CHANGE_SIZE : Nat := 0x180

/-- Button bit constants from src/include/rvl/Pad.h lines 44-55. -/
def PADData_BUTTON_DL : Nat := 1 <<< 0
def PADData_BUTTON_DR : Nat := 1 <<< 1
def PADData_BUTTON_DD : Nat := 1 <<< 2
def PADData_BUTTON_DU : Nat := 1 <<< 3
def PADData_BUTTON_Z : Nat := 1 <<< 4
def PADData_BUTTON_R : Nat := 1 <<< 5
def PADData_BUTTON_L : Nat := 1 <<< 6
def PADData_BUTTON_A : Nat := 1 <<< 8
def PADData_BUTTON_B : Nat := 1 <<< 9
def PADData_BUTTON_X : Nat := 1 <<< 10
def PADData_BUTTON_Y : Nat := 1 <<< 11
def PADData_BUTTON_S : Nat := 1 <<< 12

/-- Error codes from src/include/rvl/Pad.h lines 39-42. -/
def PADData_ERROR_NONE : Int := 0
def PADData_ERROR_NO_CONNECTION : Int := -1
def PADData_ERROR_2 : Int := -2

/-- Reduction of an Int to the value a C int8_t would hold (two's complement
wrap into [-128, 128)). -/
def toInt8 (x : Int) : Int := (x + 128) % 256 - 128

/-- Wrapping 32-bit subtraction a - b as computed on uint32_t values. -/
def sub32 (a b : Nat) : Nat := (a % 2 ^ 32 + 2 ^ 32 - b % 2 ^ 32) % 2 ^ 32

/-- struct PADData_t (Pad.h lines 58-70).  buttons is a uint16_t bitmask,
the four stick fields are int8_t, the sliders and the two reserved bytes are
uint8_t, error is an int8_t status code. -/
structure PADData where
  buttons : Nat
  aStickX : Int
  aStickY : Int
  cStickX : Int
  cStickY : Int
  sliderL : Nat
  sliderR : Nat
  unknown8 : Nat
  unknown9 : Nat
  error : Int
deriving DecidableEq

/-- struct PadOrigin (main.c lines 117-125): first-reading calibration origin
for one controller slot.  The C init field is an int8_t used as a flag. -/
structure PadOrigin where
  init : Bool
  stickX : Int
  stickY : Int
  cStickX : Int
  cStickY : Int
  analogL : Nat
  analogR : Nat
deriving DecidableEq

/-- The driver's file-scope mutable globals (main.c lines 91-127).
gcn_data and gcn_stick_origin are the four per-slot records; rumble_buffer is
the 16-row circular buffer of 4-byte snapshots; rumble_msg models bytes 1..4
of rumble_msg_buffer (byte 0 is the constant command code 0x11). -/
structure DriverState where
  dev_usb_hid_fd : Int
  started : Bool
  gcn_data : Nat → PADData
  gcn_data_written : Nat
  gcn_adapter_id : Nat
  version : Int
  error : Int
  errorMethod : Int
  rumble_sent : Nat
  rumble_recv : Nat
  rumble_buffer : Nat → Nat → Nat
  rumble_delay : Nat
  rumble_token : Nat
  rumble_msg : Nat → Nat
  gcn_stick_origin : Nat → PadOrigin

/-- The zero-initialised values the C runtime gives the static globals. -/
def zeroPad : PADData :=
  { buttons := 0, aStickX := 0, aStickY := 0, cStickX := 0, cStickY := 0,
    sliderL := 0, sliderR := 0, unknown8 := 0, unknown9 := 0, error := 0 }

def zeroOrigin : PadOrigin :=
  { init := false, stickX := 0, stickY := 0, cStickX := 0, cStickY := 0,
    analogL := 0, analogR := 0 }

/-- The program's initial global state: dev_usb_hid_fd = -1,
gcn_adapter_id = (uint32_t)-1, everything else zero (main.c lines 91-127). -/
def initState : DriverState :=
  { dev_usb_hid_fd := -1, started := false, gcn_data := fun _ => zeroPad,
    gcn_data_written := 0, gcn_adapter_id := 2 ^ 32 - 1, version := 0,
    error := 0, errorMethod := 0, rumble_sent := 0, rumble_recv := 0,
    rumble_buffer := fun _ _ => 0, rumble_delay := 0, rumble_token := 0,
    rumble_msg := fun _ => 0, gcn_stick_origin := fun _ => zeroOrigin }

/-- myPADControlMotor (main.c lines 175-191).  pad and control are C ints;
an out-of-range pad (negative included, via the unsigned cast) is a no-op.
prev is (unsigned int)(rumble_sent - 1) % RUMBLE_BUFFER.  The snapshot row
written at rumble_sent stores (uint8_t)control at column pad and copies the
other three columns from row prev; the write cursor then advances mod 16. -/
def myPADControlMotor (pad control : Int) (s : DriverState) : DriverState :=
  if pad < 0 ∨ 4 ≤ pad then s
  else
    let p := pad.toNat
    let prev := (s.rumble_sent + (2 ^ 32 - 1)) % 2 ^ 32 % RUMBLE_BUFFER
    if s.rumble_buffer prev p = (control % 256).toNat then s
    else
      { s with
        rumble_buffer := fun r j =>
          if r = s.rumble_sent ∧ j < 4 then
            (if j = p then (control % 256).toNat else s.rumble_buffer prev j)
          else s.rumble_buffer r j,
        rumble_sent := (s.rumble_sent + 1) % RUMBLE_BUFFER }

/-- The rumble queue's pending-command count: write cursor minus read cursor
modulo the capacity 16, as the claims describe it. -/
def rumblePending (s : DriverState) : Nat :=
  (s.rumble_sent + RUMBLE_BUFFER - s.rumble_recv) % RUMBLE_BUFFER

lemma myPADControlMotor_suppressed (s : DriverState) (p : Nat) (v : Int) (hp : p < 4)
    (h : s.rumble_buffer ((s.rumble_sent + (2 ^ 32 - 1)) % 2 ^ 32 % RUMBLE_BUFFER) p
      = (v % 256).toNat) :
    myPADControlMotor (p : Int) v s = s := by
  have hpad : ¬(((p : Nat) : Int) < 0 ∨ (4 : Int) ≤ ((p : Nat) : Int)) := by
    push_neg
    exact ⟨by positivity, by exact_mod_cast hp⟩
  simp only [myPADControlMotor, Int.toNat_natCast]
  rw [if_neg hpad, if_pos h]

lemma myPADControlMotor_enqueue (s : DriverState) (p : Nat) (v : Int) (hp : p < 4)
    (h : s.rumble_buffer ((s.rumble_sent + (2 ^ 32 - 1)) % 2 ^ 32 % RUMBLE_BUFFER) p
      ≠ (v % 256).toNat) :
    myPADControlMotor (p : Int) v s =
      { s with
        rumble_buffer := fun r j =>
          if r = s.rumble_sent ∧ j < 4 then
            (if j = p then (v % 256).toNat
             else s.rumble_buffer
               ((s.rumble_sent + (2 ^ 32 - 1)) % 2 ^ 32 % RUMBLE_BUFFER) j)
          else s.rumble_buffer r j,
        rumble_sent := (s.rumble_sent + 1) % RUMBLE_BUFFER } := by
  have hpad : ¬(((p : Nat) : Int) < 0 ∨ (4 : Int) ≤ ((p : Nat) : Int)) := by
    push_neg
    exact ⟨by positivity, by exact_mod_cast hp⟩
  simp only [myPADControlMotor, Int.toNat_natCast]
  rw [if_neg hpad, if_neg h]

/-- Claim C1 counterexample: starting from the program's initial state (whose
rumble snapshots are all zero), two consecutive setMotor(0, 0) calls leave the
pending-command count unchanged (both calls are suppressed as redundant), so
the count does not increase by exactly 1 as the claim states for every slot
and every intensity. -/
theorem claim1_counterexample :
    ¬ (rumblePending (myPADControlMotor 0 0 (myPADControlMotor 0 0 initState))
        = rumblePending initState + 1) := by decide

/-- Claim C1 (amended): provided the intensity differs from the most recently
queued intensity for that slot and the queue is not full (pending count below
15), two immediately consecutive setMotor(s, v) calls increase the pending
count by exactly 1: the second call is suppressed because v equals the most
recently queued intensity for slot s, and the single enqueued entry is a
complete 4-slot snapshot whose other slots come from the previous snapshot. -/
theorem claim1_setMotor_redundancy (s : DriverState) (p : Nat) (v : Int)
    (hp : p < 4) (hs : s.rumble_sent < 16) (hr : s.rumble_recv < 16)
    (hnew : s.rumble_buffer ((s.rumble_sent + (2 ^ 32 - 1)) % 2 ^ 32 % RUMBLE_BUFFER) p
      ≠ (v % 256).toNat)
    (hroom : rumblePending s < 15) :
    rumblePending (myPADControlMotor (p : Int) v (myPADControlMotor (p : Int) v s))
        = rumblePending s + 1
    ∧ myPADControlMotor (p : Int) v (myPADControlMotor (p : Int) v s)
        = myPADControlMotor (p : Int) v s
    ∧ (myPADControlMotor (p : Int) v s).rumble_buffer s.rumble_sent p = (v % 256).toNat
    ∧ ∀ j, j < 4 → j ≠ p →
        (myPADControlMotor (p : Int) v s).rumble_buffer s.rumble_sent j
          = s.rumble_buffer ((s.rumble_sent + (2 ^ 32 - 1)) % 2 ^ 32 % RUMBLE_BUFFER) j := by
  have h1 := myPADControlMotor_enqueue s p v hp hnew
  have hsup : myPADControlMotor (p : Int) v (myPADControlMotor (p : Int) v s)
      = myPADControlMotor (p : Int) v s := by
    apply myPADControlMotor_suppressed _ p v hp
    rw [h1]
    simp only [RUMBLE_BUFFER]
    have e : ((s.rumble_sent + 1) % 16 + (2 ^ 32 - 1)) % 2 ^ 32 % 16 = s.rumble_sent := by
      omega
    simp only [e]
    simp [hp]
  refine ⟨?_, hsup, ?_, ?_⟩
  · rw [hsup, h1]
    simp only [rumblePending, RUMBLE_BUFFER] at hroom ⊢
    omega
  · rw [h1]
    simp [hp]
  · intro j hj hjp
    rw [h1]
    simp [hj, hjp]

/-- Claim C1 witness: a concrete instance of the amended redundancy-suppression
theorem, at the initial state with slot 0 and intensity 5. -/
theorem claim1_witness :
    rumblePending
        (myPADControlMotor ((0 : Nat) : Int) 5 (myPADControlMotor ((0 : Nat) : Int) 5 initState))
      = rumblePending initState + 1 :=
  (claim1_setMotor_redundancy initState 0 5 (by decide) (by decide) (by decide)
    (by decide) (by decide)).1

/-- The button bitmask built by onDevUsbPoll (main.c lines 783-795) from the
two status bytes d1 = data[1], d2 = data[2] and the raw analog trigger bytes.
Each C expression ((data[k] >> b) & 1) is written (dk >>> b) % 2. -/
def decodeButtons (d1 d2 analogL analogR : Nat) : Nat :=
  (if (d1 >>> 0) % 2 = 1 then PADData_BUTTON_A else 0) |||
  (if (d1 >>> 1) % 2 = 1 then PADData_BUTTON_B else 0) |||
  (if (d1 >>> 2) % 2 = 1 then PADData_BUTTON_X else 0) |||
  (if (d1 >>> 3) % 2 = 1 then PADData_BUTTON_Y else 0) |||
  (if (d1 >>> 4) % 2 = 1 then PADData_BUTTON_DL else 0) |||
  (if (d1 >>> 5) % 2 = 1 then PADData_BUTTON_DR else 0) |||
  (if (d1 >>> 6) % 2 = 1 then PADData_BUTTON_DD else 0) |||
  (if (d1 >>> 7) % 2 = 1 then PADData_BUTTON_DU else 0) |||
  (if (d2 >>> 0) % 2 = 1 then PADData_BUTTON_S else 0) |||
  (if (d2 >>> 1) % 2 = 1 then PADData_BUTTON_Z else 0) |||
  (if GCN_TRIGGER_THRESHOLD ≤ analogL then PADData_BUTTON_L else 0) |||
  (if GCN_TRIGGER_THRESHOLD ≤ analogR then PADData_BUTTON_R else 0)

/-- The per-slot body of onDevUsbPoll's decode loop (main.c lines 759-806).
d holds the slot's nine raw bytes data[0]..data[8].  A status nibble other
than 1 or 2 takes the padNoConnection path: only the error code and the
origin's init flag change.  Otherwise the first valid reading is captured as
the origin and the outputs are computed relative to it; stick values are
int8_t so every assignment is reduced with toInt8. -/
def updateSlot (d : Nat → Nat) (prev : PADData) (origin : PadOrigin) :
    PADData × PadOrigin :=
  if (d 0) >>> 4 ≠ 1 ∧ (d 0) >>> 4 ≠ 2 then
    ({ prev with error := PADData_ERROR_NO_CONNECTION }, { origin with init := false })
  else
    let stickX := toInt8 ((d 3 : Int) - 128)
    let stickY := toInt8 ((d 4 : Int) - 128)
    let cStickX := toInt8 ((d 5 : Int) - 128)
    let cStickY := toInt8 ((d 6 : Int) - 128)
    let analogL := d 7
    let analogR := d 8
    let origin :=
      if origin.init = false then
        { init := true, stickX := stickX, stickY := stickY, cStickX := cStickX,
          cStickY := cStickY, analogL := analogL, analogR := analogR }
      else origin
    ({ buttons := decodeButtons (d 1) (d 2) analogL analogR,
       aStickX := toInt8 (stickX - origin.stickX),
       aStickY := toInt8 (stickY - origin.stickY),
       cStickX := toInt8 (cStickX - origin.cStickX),
       cStickY := toInt8 (cStickY - origin.cStickY),
       sliderL := if analogL < origin.analogL then 0 else analogL - origin.analogL,
       sliderR := if analogR < origin.analogR then 0 else analogR - origin.analogR,
       unknown8 := 0, unknown9 := 0, error := PADData_ERROR_NONE }, origin)

/-- One iteration of onDevUsbPoll's slot loop: slot i's nine bytes start at
poll_msg_buffer[i * 9 + 1] (main.c line 760). -/
def pollStep (buf : Nat → Nat) (i : Nat) (s : DriverState) : DriverState :=
  let r := updateSlot (fun k => buf (i * 9 + 1 + k)) (s.gcn_data i) (s.gcn_stick_origin i)
  { s with gcn_data := Function.update s.gcn_data i r.1,
           gcn_stick_origin := Function.update s.gcn_stick_origin i r.2 }

/-- The whole accepted-report update of onDevUsbPoll (main.c lines 758-808):
all four slots decoded in order, then gcn_data_written stamped with the
current time base value. -/
def pollUpdate (buf : Nat → Nat) (now : Nat) (s : DriverState) : DriverState :=
  { pollStep buf 3 (pollStep buf 2 (pollStep buf 1 (pollStep buf 0 s))) with
      gcn_data_written := now % 2 ^ 32 }

lemma natSub_clamp (a b : Nat) :
    (((if a < b then 0 else a - b : Nat)) : Int) = max 0 ((a : Int) - b) := by
  split_ifs with h
  · have hle : (a : Int) - b ≤ 0 := by omega
    rw [max_eq_left hle]
    simp
  · have hba : b ≤ a := not_lt.mp h
    rw [Nat.cast_sub hba, max_eq_right (by omega)]

lemma toInt8_eq_self (x : Int) (h1 : -128 ≤ x) (h2 : x < 128) : toInt8 x = x := by
  unfold toInt8
  omega

lemma toInt8_zero : toInt8 0 = 0 := by decide

/-- Claim C3: for every raw analog trigger byte and captured origin byte in
[0, 255], the slider value decoded for a valid, connected slot is
max 0 (raw - origin); in particular it is never negative. -/
theorem claim3_slider_clamp (d : Nat → Nat) (prev : PADData) (origin : PadOrigin)
    (hst : ¬((d 0) >>> 4 ≠ 1 ∧ (d 0) >>> 4 ≠ 2))
    (hinit : origin.init = true)
    (hL : d 7 < 256) (hR : d 8 < 256)
    (hoL : origin.analogL < 256) (hoR : origin.analogR < 256) :
    ((updateSlot d prev origin).1.sliderL : Int) = max 0 ((d 7 : Int) - origin.analogL)
    ∧ ((updateSlot d prev origin).1.sliderR : Int) = max 0 ((d 8 : Int) - origin.analogR)
    ∧ 0 ≤ ((updateSlot d prev origin).1.sliderL : Int)
    ∧ 0 ≤ ((updateSlot d prev origin).1.sliderR : Int) := by
  unfold updateSlot
  rw [if_neg hst]
  simp only [hinit]
  refine ⟨natSub_clamp _ _, natSub_clamp _ _, ?_, ?_⟩ <;> positivity

/-- Claim C3 witness: concrete instance with raw trigger bytes 100 and 200 and
origin bytes 30, both sliders equal the clamped difference. -/
theorem claim3_witness :
    ((updateSlot (fun k => if k = 7 then 100 else if k = 8 then 200 else 0x10)
        zeroPad { zeroOrigin with init := true, analogL := 30, analogR := 30 }).1.sliderL : Int)
      = max 0 ((100 : Int) - 30) :=
  (claim3_slider_clamp _ zeroPad _ (by decide) (by decide) (by decide) (by decide)
    (by decide) (by decide)).1

/-- On the first valid report after a connection (origin not yet captured),
updateSlot stores the recentered readings as the origin and reports all four
axes and both sliders as zero. -/
lemma updateSlot_first (f : Nat → Nat) (prev : PADData) (og : PadOrigin)
    (hst : ¬((f 0) >>> 4 ≠ 1 ∧ (f 0) >>> 4 ≠ 2)) (hog : og.init = false) :
    updateSlot f prev og =
      ({ buttons := decodeButtons (f 1) (f 2) (f 7) (f 8),
         aStickX := 0, aStickY := 0, cStickX := 0, cStickY := 0,
         sliderL := 0, sliderR := 0, unknown8 := 0, unknown9 := 0, error := 0 },
       { init := true, stickX := toInt8 ((f 3 : Int) - 128),
         stickY := toInt8 ((f 4 : Int) - 128), cStickX := toInt8 ((f 5 : Int) - 128),
         cStickY := toInt8 ((f 6 : Int) - 128), analogL := f 7, analogR := f 8 }) := by
  unfold updateSlot
  rw [if_neg hst]
  simp [hog, PADData_ERROR_NONE, toInt8]

/-- On a report decoded while the origin is already captured, updateSlot
leaves the origin unchanged and reports each axis as the int8 reduction of
the recentered reading minus the origin, and each slider as the clamped
difference from the origin. -/
lemma updateSlot_subsequent (g : Nat → Nat) (prev : PADData) (og : PadOrigin)
    (hst : ¬((g 0) >>> 4 ≠ 1 ∧ (g 0) >>> 4 ≠ 2)) (hog : og.init = true) :
    updateSlot g prev og =
      ({ buttons := decodeButtons (g 1) (g 2) (g 7) (g 8),
         aStickX := toInt8 (toInt8 ((g 3 : Int) - 128) - og.stickX),
         aStickY := toInt8 (toInt8 ((g 4 : Int) - 128) - og.stickY),
         cStickX := toInt8 (toInt8 ((g 5 : Int) - 128) - og.cStickX),
         cStickY := toInt8 (toInt8 ((g 6 : Int) - 128) - og.cStickY),
         sliderL := if g 7 < og.analogL then 0 else g 7 - og.analogL,
         sliderR := if g 8 < og.analogR then 0 else g 8 - og.analogR,
         unknown8 := 0, unknown9 := 0, error := 0 }, og) := by
  unfold updateSlot
  rw [if_neg hst]
  simp [hog, PADData_ERROR_NONE]

/-- Claim C2 counterexample: with the first valid report carrying stick byte
0 (origin stickX becomes -128) and the second carrying stick byte 255, the
reported aStickX is the int8 wrap -1, not the integer difference
(255 - 128) - (0 - 128) = 255 that the claim's formula gives, so the
reported axis does not always equal current recentered minus origin
recentered. -/
theorem claim2_counterexample :
    (updateSlot (fun k => if k = 0 then 0x10 else if k = 3 then 255 else 0)
        (updateSlot (fun k => if k = 0 then 0x10 else 0) zeroPad zeroOrigin).1
        (updateSlot (fun k => if k = 0 then 0x10 else 0) zeroPad zeroOrigin).2).1.aStickX
      = -1
    ∧ ¬((updateSlot (fun k => if k = 0 then 0x10 else if k = 3 then 255 else 0)
        (updateSlot (fun k => if k = 0 then 0x10 else 0) zeroPad zeroOrigin).1
        (updateSlot (fun k => if k = 0 then 0x10 else 0) zeroPad zeroOrigin).2).1.aStickX
      = ((255 : Int) - 128) - ((0 : Int) - 128)) := by decide

/-- Claim C2 (amended): the first valid reading after connection is captured
as the origin (recentered by -128 for sticks) and the first report's axes are
all zero; every subsequently reported stick axis equals the signed 8-bit
reduction of (current recentered reading minus origin recentered reading);
in particular feeding the same raw report again yields zero axes. -/
theorem claim2_calibration (f g : Nat → Nat) (prev : PADData) (og : PadOrigin)
    (hog : og.init = false)
    (hfst : ¬((f 0) >>> 4 ≠ 1 ∧ (f 0) >>> 4 ≠ 2))
    (hgst : ¬((g 0) >>> 4 ≠ 1 ∧ (g 0) >>> 4 ≠ 2))
    (hf : ∀ k, f k < 256) (hg : ∀ k, g k < 256) :
    (updateSlot f prev og).2.init = true
    ∧ (updateSlot f prev og).2.stickX = (f 3 : Int) - 128
    ∧ (updateSlot f prev og).2.stickY = (f 4 : Int) - 128
    ∧ (updateSlot f prev og).2.cStickX = (f 5 : Int) - 128
    ∧ (updateSlot f prev og).2.cStickY = (f 6 : Int) - 128
    ∧ (updateSlot f prev og).2.analogL = f 7
    ∧ (updateSlot f prev og).2.analogR = f 8
    ∧ (updateSlot f prev og).1.aStickX = 0
    ∧ (updateSlot f prev og).1.aStickY = 0
    ∧ (updateSlot f prev og).1.cStickX = 0
    ∧ (updateSlot f prev og).1.cStickY = 0
    ∧ (updateSlot g (updateSlot f prev og).1 (updateSlot f prev og).2).1.aStickX
        = toInt8 (((g 3 : Int) - 128) - ((f 3 : Int) - 128))
    ∧ (updateSlot g (updateSlot f prev og).1 (updateSlot f prev og).2).1.aStickY
        = toInt8 (((g 4 : Int) - 128) - ((f 4 : Int) - 128))
    ∧ (updateSlot g (updateSlot f prev og).1 (updateSlot f prev og).2).1.cStickX
        = toInt8 (((g 5 : Int) - 128) - ((f 5 : Int) - 128))
    ∧ (updateSlot g (updateSlot f prev og).1 (updateSlot f prev og).2).1.cStickY
        = toInt8 (((g 6 : Int) - 128) - ((f 6 : Int) - 128))
    ∧ (updateSlot f (updateSlot f prev og).1 (updateSlot f prev og).2).1.aStickX = 0
    ∧ (updateSlot f (updateSlot f prev og).1 (updateSlot f prev og).2).1.aStickY = 0
    ∧ (updateSlot f (updateSlot f prev og).1 (updateSlot f prev og).2).1.cStickX = 0
    ∧ (updateSlot f (updateSlot f prev og).1 (updateSlot f prev og).2).1.cStickY = 0 := by
  have h1 := updateSlot_first f prev og hfst hog
  have e3 : toInt8 ((f 3 : Int) - 128) = (f 3 : Int) - 128 :=
    toInt8_eq_self _ (by have := hf 3; omega) (by have := hf 3; omega)
  have e4 : toInt8 ((f 4 : Int) - 128) = (f 4 : Int) - 128 :=
    toInt8_eq_self _ (by have := hf 4; omega) (by have := hf 4; omega)
  have e5 : toInt8 ((f 5 : Int) - 128) = (f 5 : Int) - 128 :=
    toInt8_eq_self _ (by have := hf 5; omega) (by have := hf 5; omega)
  have e6 : toInt8 ((f 6 : Int) - 128) = (f 6 : Int) - 128 :=
    toInt8_eq_self _ (by have := hf 6; omega) (by have := hf 6; omega)
  have g3 : toInt8 ((g 3 : Int) - 128) = (g 3 : Int) - 128 :=
    toInt8_eq_self _ (by have := hg 3; omega) (by have := hg 3; omega)
  have g4 : toInt8 ((g 4 : Int) - 128) = (g 4 : Int) - 128 :=
    toInt8_eq_self _ (by have := hg 4; omega) (by have := hg 4; omega)
  have g5 : toInt8 ((g 5 : Int) - 128) = (g 5 : Int) - 128 :=
    toInt8_eq_self _ (by have := hg 5; omega) (by have := hg 5; omega)
  have g6 : toInt8 ((g 6 : Int) - 128) = (g 6 : Int) - 128 :=
    toInt8_eq_self _ (by have := hg 6; omega) (by have := hg 6; omega)
  have h2 := updateSlot_subsequent g (updateSlot f prev og).1 (updateSlot f prev og).2
    hgst (by rw [h1])
  have h3 := updateSlot_subsequent f (updateSlot f prev og).1 (updateSlot f prev og).2
    hfst (by rw [h1])
  rw [h2, h3, h1]
  simp [e3, e4, e5, e6, g3, g4, g5, g6, toInt8_zero]

/-- Claim C2 witness: the spec's concrete scenario.  First poll with status
nibble 1 and axis bytes 131,131,131,131,0,0 gives origin 3,3,3,3,0,0 after
the -128 shift and all-zero axes; the second poll with stick byte 140 reports
aStickX = 9 = (140 - 128) - 3 and the other axes zero. -/
theorem claim2_witness :
    (updateSlot (fun k => if k = 0 then 0x10 else if k ≤ 2 then 0
        else if k ≤ 6 then 131 else 0) zeroPad zeroOrigin).2.stickX = 3
    ∧ (updateSlot (fun k => if k = 0 then 0x10 else if k ≤ 2 then 0
        else if k ≤ 6 then 131 else 0) zeroPad zeroOrigin).1.aStickX = 0
    ∧ (updateSlot (fun k => if k = 0 then 0x10 else if k ≤ 2 then 0
          else if k = 3 then 140 else if k ≤ 6 then 131 else 0)
        (updateSlot (fun k => if k = 0 then 0x10 else if k ≤ 2 then 0
          else if k ≤ 6 then 131 else 0) zeroPad zeroOrigin).1
        (updateSlot (fun k => if k = 0 then 0x10 else if k ≤ 2 then 0
          else if k ≤ 6 then 131 else 0) zeroPad zeroOrigin).2).1.aStickX = 9
    ∧ (updateSlot (fun k => if k = 0 then 0x10 else if k ≤ 2 then 0
          else if k = 3 then 140 else if k ≤ 6 then 131 else 0)
        (updateSlot (fun k => if k = 0 then 0x10 else if k ≤ 2 then 0
          else if k ≤ 6 then 131 else 0) zeroPad zeroOrigin).1
        (updateSlot (fun k => if k = 0 then 0x10 else if k ≤ 2 then 0
          else if k ≤ 6 then 131 else 0) zeroPad zeroOrigin).2).1.aStickY = 0 := by
  have h := claim2_calibration
    (fun k => if k = 0 then 0x10 else if k ≤ 2 then 0 else if k ≤ 6 then 131 else 0)
    (fun k => if k = 0 then 0x10 else if k ≤ 2 then 0
      else if k = 3 then 140 else if k ≤ 6 then 131 else 0)
    zeroPad zeroOrigin (by decide) (by decide) (by decide)
    (fun k => by dsimp only; split_ifs <;> omega)
    (fun k => by dsimp only; split_ifs <;> omega)
  refine ⟨?_, h.2.2.2.2.2.2.2.1, ?_, ?_⟩
  · rw [h.2.1]
    decide
  · rw [h.2.2.2.2.2.2.2.2.2.2.2.1]
    decide
  · rw [h.2.2.2.2.2.2.2.2.2.2.2.2.1]
    decide

lemma testBit_cond (c : Prop) [Decidable c] (a k : Nat) :
    (if c then a else 0).testBit k = (decide c && a.testBit k) := by
  split_ifs with h <;> simp [h]

/-- Claim C4: for a report slot whose status nibble is accepted, every one of
the ten digital button bits of the decoded bitmask is set iff the raw bit of
the slot's two status bytes is 1, and the L and R bits are set iff the raw
trigger byte is at least the threshold 170.  Bit positions follow Pad.h:
A=8, B=9, X=10, Y=11, DL=0, DR=1, DD=2, DU=3, S=12, Z=4, L=6, R=5. -/
theorem claim4_buttons (d : Nat → Nat) (prev : PADData) (origin : PadOrigin)
    (b1 b2 aL aR : Nat)
    (hst : ¬((d 0) >>> 4 ≠ 1 ∧ (d 0) >>> 4 ≠ 2)) :
    (updateSlot d prev origin).1.buttons = decodeButtons (d 1) (d 2) (d 7) (d 8)
    ∧ ((decodeButtons b1 b2 aL aR).testBit 8 = true ↔ (b1 >>> 0) % 2 = 1)
    ∧ ((decodeButtons b1 b2 aL aR).testBit 9 = true ↔ (b1 >>> 1) % 2 = 1)
    ∧ ((decodeButtons b1 b2 aL aR).testBit 10 = true ↔ (b1 >>> 2) % 2 = 1)
    ∧ ((decodeButtons b1 b2 aL aR).testBit 11 = true ↔ (b1 >>> 3) % 2 = 1)
    ∧ ((decodeButtons b1 b2 aL aR).testBit 0 = true ↔ (b1 >>> 4) % 2 = 1)
    ∧ ((decodeButtons b1 b2 aL aR).testBit 1 = true ↔ (b1 >>> 5) % 2 = 1)
    ∧ ((decodeButtons b1 b2 aL aR).testBit 2 = true ↔ (b1 >>> 6) % 2 = 1)
    ∧ ((decodeButtons b1 b2 aL aR).testBit 3 = true ↔ (b1 >>> 7) % 2 = 1)
    ∧ ((decodeButtons b1 b2 aL aR).testBit 12 = true ↔ (b2 >>> 0) % 2 = 1)
    ∧ ((decodeButtons b1 b2 aL aR).testBit 4 = true ↔ (b2 >>> 1) % 2 = 1)
    ∧ ((decodeButtons b1 b2 aL aR).testBit 6 = true ↔ GCN_TRIGGER_THRESHOLD ≤ aL)
    ∧ ((decodeButtons b1 b2 aL aR).testBit 5 = true ↔ GCN_TRIGGER_THRESHOLD ≤ aR) := by
  constructor
  · unfold updateSlot
    rw [if_neg hst]
  · refine ⟨?_, ?_, ?_, ?_, ?_, ?_, ?_, ?_, ?_, ?_, ?_, ?_⟩ <;>
      simp only [decodeButtons, PADData_BUTTON_A, PADData_BUTTON_B, PADData_BUTTON_X,
        PADData_BUTTON_Y, PADData_BUTTON_DL, PADData_BUTTON_DR, PADData_BUTTON_DD,
        PADData_BUTTON_DU, PADData_BUTTON_S, PADData_BUTTON_Z, PADData_BUTTON_L,
        PADData_BUTTON_R, Nat.one_shiftLeft, Nat.testBit_lor, testBit_cond] <;>
      simp [Nat.testBit_to_div_mod, Nat.shiftRight_eq_div_pow]

/-- Claim C4 witness: concrete report bytes.  Status bytes 0b10100101 and
0b10 with trigger bytes 170 and 169 give exactly the bits A, X, DR, DU, Z, L
set and B, Y, DL, DD, S, R clear. -/
theorem claim4_witness :
    (updateSlot (fun k => if k = 0 then 0x10 else if k = 1 then 0xa5
          else if k = 2 then 0x2 else if k = 7 then 170 else if k = 8 then 169 else 0)
        zeroPad zeroOrigin).1.buttons
      = decodeButtons 0xa5 0x2 170 169
    ∧ ((decodeButtons 0xa5 0x2 170 169).testBit 8 = true ↔ (0xa5 >>> 0) % 2 = 1) := by
  have h := claim4_buttons
    (fun k => if k = 0 then 0x10 else if k = 1 then 0xa5
      else if k = 2 then 0x2 else if k = 7 then 170 else if k = 8 then 169 else 0)
    zeroPad zeroOrigin 0xa5 0x2 170 169 (by decide)
  exact ⟨h.1, h.2.1⟩

/-- padNoConnection (main.c lines 138-141): mark slot i disconnected and
clear its calibration origin's init flag. -/
def padNoConnection (i : Nat) (s : DriverState) : DriverState :=
  { s with
    gcn_data := Function.update s.gcn_data i
      { s.gcn_data i with error := PADData_ERROR_NO_CONNECTION },
    gcn_stick_origin := Function.update s.gcn_stick_origin i
      { s.gcn_stick_origin i with init := false } }

/-- The loops in myPADRead that call padNoConnection for every slot. -/
def resetAll (s : DriverState) : DriverState :=
  padNoConnection 3 (padNoConnection 2 (padNoConnection 1 (padNoConnection 0 s)))

/-- One iteration of myPADRead's copy-out loop for slot i (main.c lines
166-171), restricted to the per-slot mutation: a slot whose error code is 0
(fresh data) is overwritten with PADData_ERROR_2. -/
def padReadCopyStep (i : Nat) (s : DriverState) : DriverState :=
  if (s.gcn_data i).error = 0 then
    { s with
      gcn_data := Function.update s.gcn_data i
        { s.gcn_data i with error := PADData_ERROR_2 } }
  else s

/-- The state myPADRead has built when its copy-out loop starts (main.c lines
148-165): the lazy first-call initialisation (reset all slots, stamp the
liveness clock with the mftb() read t0, submit IOS_OpenAsync — the submission
itself touches none of the globals modelled here), then the USB-error reset,
else the liveness-timeout reset using the mftb() read t1. -/
def padReadCheck (t1 : Nat) (s1 : DriverState) : DriverState :=
  if 0 < s1.errorMethod then resetAll { s1 with errorMethod := -s1.errorMethod }
  else if GCN_TIMEOUT < sub32 t1 s1.gcn_data_written then resetAll s1
  else s1

def padReadState (t0 t1 : Nat) (s : DriverState) : DriverState :=
  padReadCheck t1
    (if s.started = false then
      { resetAll { s with started := true } with gcn_data_written := t0 % 2 ^ 32 }
    else s)

/-- myPADRead (main.c lines 147-173).  The returned function is the caller's
result array: each slot is copied out before its error code is rewritten by
the copy-out loop. -/
def myPADRead (t0 t1 : Nat) (s : DriverState) : DriverState × (Nat → PADData) :=
  let s := padReadState t0 t1 s
  (padReadCopyStep 3 (padReadCopyStep 2 (padReadCopyStep 1 (padReadCopyStep 0 s))),
   s.gcn_data)

lemma padNoConnection_gcn_data (i j : Nat) (s : DriverState) :
    (padNoConnection i s).gcn_data j
      = if j = i then { s.gcn_data i with error := PADData_ERROR_NO_CONNECTION }
        else s.gcn_data j := by
  simp [padNoConnection, Function.update]

lemma padNoConnection_origin (i j : Nat) (s : DriverState) :
    (padNoConnection i s).gcn_stick_origin j
      = if j = i then { s.gcn_stick_origin i with init := false }
        else s.gcn_stick_origin j := by
  simp [padNoConnection, Function.update]

lemma resetAll_error (i : Nat) (s : DriverState) (hi : i < 4) :
    ((resetAll s).gcn_data i).error = PADData_ERROR_NO_CONNECTION
    ∧ ((resetAll s).gcn_stick_origin i).init = false := by
  interval_cases i <;>
    simp [resetAll, padNoConnection_gcn_data, padNoConnection_origin]

lemma padReadCopyStep_gcn_data (i j : Nat) (s : DriverState) :
    ((padReadCopyStep i s).gcn_data j).error
      = if j = i ∧ (s.gcn_data i).error = 0 then PADData_ERROR_2
        else (s.gcn_data j).error := by
  unfold padReadCopyStep
  by_cases h1 : (s.gcn_data i).error = 0
  · rw [if_pos h1]
    by_cases hj : j = i
    · subst hj
      simp [Function.update, h1]
    · simp [Function.update, hj, h1]
  · rw [if_neg h1]
    simp [h1]

lemma padReadCopyStep_origin (i : Nat) (s : DriverState) :
    (padReadCopyStep i s).gcn_stick_origin = s.gcn_stick_origin := by
  unfold padReadCopyStep
  split_ifs <;> rfl

lemma padReadFinish_error (s : DriverState) (i : Nat) (hi : i < 4) :
    (((padReadCopyStep 3 (padReadCopyStep 2 (padReadCopyStep 1
          (padReadCopyStep 0 s)))).gcn_data i).error)
      = if (s.gcn_data i).error = 0 then PADData_ERROR_2 else (s.gcn_data i).error := by
  interval_cases i <;> simp [padReadCopyStep_gcn_data]

/-- In every branch of padReadState that applies a reset, and whenever the
incoming hypothesis of claim C5 holds, every slot of the produced state is
marked disconnected with a cleared origin. -/
lemma padReadState_reset (s : DriverState) (t0 t1 : Nat) (i : Nat) (hi : i < 4)
    (helapsed : GCN_TIMEOUT < sub32 t1 s.gcn_data_written) :
    ((padReadState t0 t1 s).gcn_data i).error = PADData_ERROR_NO_CONNECTION
    ∧ ((padReadState t0 t1 s).gcn_stick_origin i).init = false := by
  have hcheck : ∀ (s1 : DriverState),
      (((s1.gcn_data i).error = PADData_ERROR_NO_CONNECTION
          ∧ (s1.gcn_stick_origin i).init = false)
        ∨ GCN_TIMEOUT < sub32 t1 s1.gcn_data_written) →
      ((padReadCheck t1 s1).gcn_data i).error = PADData_ERROR_NO_CONNECTION
      ∧ ((padReadCheck t1 s1).gcn_stick_origin i).init = false := by
    intro s1 h
    unfold padReadCheck
    split_ifs with h1 h2
    · exact resetAll_error i _ hi
    · exact resetAll_error i _ hi
    · rcases h with h | h
      · exact h
      · exact absurd h h2
  unfold padReadState
  by_cases hst : s.started = false
  · rw [if_pos hst]
    exact hcheck _ (Or.inl (resetAll_error i ({ s with started := true }) hi))
  · rw [if_neg hst]
    exact hcheck _ (Or.inr helapsed)

/-- Claim C5 counterexample: with the driver started, no USB error, a slot
holding fresh data (error 0), the stamp at 0 and the time-base read exactly
GCN_TIMEOUT later — an elapsed time of exactly the timeout window, i.e. "at
least" the window — the poll result still reports the slot's stale data
(error 0), not "no connection": the code resets only when the elapsed time
strictly exceeds the window. -/
theorem claim5_counterexample :
    sub32 GCN_TIMEOUT ({ initState with started := true } : DriverState).gcn_data_written
        = GCN_TIMEOUT
    ∧ ((myPADRead 0 GCN_TIMEOUT { initState with started := true }).2 0).error
        ≠ PADData_ERROR_NO_CONNECTION := by decide

/-- Claim C5 (amended): if the elapsed time-base against the last-written
stamp strictly exceeds the timeout window (1500 ms of time-base ticks), then
the next myPADRead call resets every one of the four slots (error code "no
connection", calibration origin cleared) and its result reports "no
connection" for all slots, regardless of their prior state. -/
theorem claim5_timeout (s : DriverState) (t0 t1 : Nat) (i : Nat) (hi : i < 4)
    (helapsed : GCN_TIMEOUT < sub32 t1 s.gcn_data_written) :
    ((myPADRead t0 t1 s).2 i).error = PADData_ERROR_NO_CONNECTION
    ∧ ((myPADRead t0 t1 s).1.gcn_data i).error = PADData_ERROR_NO_CONNECTION
    ∧ ((myPADRead t0 t1 s).1.gcn_stick_origin i).init = false := by
  have h := padReadState_reset s t0 t1 i hi helapsed
  have hfin := padReadFinish_error (padReadState t0 t1 s) i hi
  refine ⟨h.1, ?_, ?_⟩
  · show (((padReadCopyStep 3 (padReadCopyStep 2 (padReadCopyStep 1
        (padReadCopyStep 0 (padReadState t0 t1 s))))).gcn_data i).error) = _
    rw [hfin, h.1]
    simp [PADData_ERROR_NO_CONNECTION]
  · show (((padReadCopyStep 3 (padReadCopyStep 2 (padReadCopyStep 1
        (padReadCopyStep 0 (padReadState t0 t1 s))))).gcn_stick_origin i).init) = false
    rw [padReadCopyStep_origin, padReadCopyStep_origin, padReadCopyStep_origin,
      padReadCopyStep_origin]
    exact h.2

/-- Claim C5 witness: concrete instance with the stamp at 0 and the
time-base read one tick past the window; slot 0 reports no connection. -/
theorem claim5_witness :
    ((myPADRead 0 (GCN_TIMEOUT + 1) { initState with started := true }).2 0).error
      = PADData_ERROR_NO_CONNECTION :=
  (claim5_timeout { initState with started := true } 0 (GCN_TIMEOUT + 1) 0
    (by decide) (by decide)).1

/-- Claim C9: after myPADRead returns, no stored slot among the four has
error code 0: a slot copied out with error 0 is rewritten to PADData_ERROR_2
inside the same critical section, and every other slot keeps its error
code. -/
theorem claim9_no_fresh_after_read (s : DriverState) (t0 t1 : Nat) (i : Nat)
    (hi : i < 4) :
    ((myPADRead t0 t1 s).1.gcn_data i).error ≠ 0
    ∧ ((myPADRead t0 t1 s).1.gcn_data i).error
        = (if ((myPADRead t0 t1 s).2 i).error = 0 then PADData_ERROR_2
           else ((myPADRead t0 t1 s).2 i).error) := by
  have hfin := padReadFinish_error (padReadState t0 t1 s) i hi
  constructor
  · show (((padReadCopyStep 3 (padReadCopyStep 2 (padReadCopyStep 1
        (padReadCopyStep 0 (padReadState t0 t1 s))))).gcn_data i).error) ≠ 0
    rw [hfin]
    split_ifs with h
    · decide
    · exact h
  · exact hfin

/-- Claim C9 witness: at the initial state (slot 0 freshly zeroed with error
code 0) the stored slot is rewritten to PADData_ERROR_2 while the copied-out
result still shows 0. -/
theorem claim9_witness :
    ((myPADRead 0 0 { initState with started := true }).1.gcn_data 0).error ≠ 0
    ∧ ((myPADRead 0 0 { initState with started := true }).1.gcn_data 0).error
        = (if ((myPADRead 0 0 { initState with started := true }).2 0).error = 0
           then PADData_ERROR_2
           else ((myPADRead 0 0 { initState with started := true }).2 0).error) :=
  claim9_no_fresh_after_read { initState with started := true } 0 0 0 (by decide)

/-- A rumble transfer handed to the transport: the four intensity bytes of
rumble_msg_buffer (the command byte 0x11 is constant) and the correlation
token passed to the completion callback. -/
structure RumbleSend where
  payload : Nat → Nat
  token : Nat

/-- onRumble (main.c lines 695-701): the completion callback of a rumble
transfer.  The result code ret is explicitly discarded ((void)ret); if the
correlation token still matches the most recently issued token the ack-delay
counter is cleared, otherwise nothing changes. -/
def onRumble (ret : Int) (token : Nat) (s : DriverState) : DriverState :=
  if s.rumble_token = token then { s with rumble_delay := 0 } else s

/-- The rumble-queue half of sendPoll (main.c lines 704-728).  When the queue
is non-empty: with the ack-delay counter at zero the oldest snapshot is
copied into the outbound payload, the read cursor advances mod 16, the
counter is reloaded with RUMBLE_DELAY and the token incremented (uint8_t);
otherwise the counter just decrements.  In BOTH cases sendRumble4/5 is then
invoked, submitting the current payload with the current token; with an
empty queue no rumble is submitted. -/
def sendPollStep (s : DriverState) : DriverState × Option RumbleSend :=
  if s.rumble_sent ≠ s.rumble_recv then
    let s :=
      if s.rumble_delay = 0 then
        { s with
          rumble_msg := fun i =>
            if i < 4 then s.rumble_buffer s.rumble_recv i else s.rumble_msg i,
          rumble_recv := (s.rumble_recv + 1) % RUMBLE_BUFFER,
          rumble_delay := RUMBLE_DELAY,
          rumble_token := (s.rumble_token + 1) % 256 }
      else { s with rumble_delay := s.rumble_delay - 1 }
    (s, some ⟨s.rumble_msg, s.rumble_token⟩)
  else (s, none)

/-- sendPoll (main.c lines 703-742): the rumble-queue step followed by the
submission of the next input poll; the value returned to the caller is the
poll submission's result (modelled by the parameter pollSubmitRet), or -1
if neither protocol version is selected. -/
def sendPoll (pollSubmitRet : Int) (s : DriverState) :
    DriverState × Option RumbleSend × Int :=
  ((sendPollStep s).1, (sendPollStep s).2,
   if s.version = 5 ∨ s.version = 4 then pollSubmitRet else -1)

/-- Claim C10: onRumble ignores the operation's result code entirely: the
state transition is the same for every result code, the error code, stage
ordinal, controller states and origins are untouched, the ack-delay counter
is cleared exactly when the completion's token equals the most recently
issued token, and on a token mismatch nothing at all changes. -/
theorem claim10_onRumble_ignores_result (ret retOther : Int) (token : Nat)
    (s : DriverState) :
    onRumble ret token s = onRumble retOther token s
    ∧ (onRumble ret token s).error = s.error
    ∧ (onRumble ret token s).errorMethod = s.errorMethod
    ∧ (onRumble ret token s).gcn_data = s.gcn_data
    ∧ (onRumble ret token s).gcn_stick_origin = s.gcn_stick_origin
    ∧ (onRumble ret token s).rumble_delay
        = (if s.rumble_token = token then 0 else s.rumble_delay)
    ∧ onRumble ret token s
        = (if s.rumble_token = token then { s with rumble_delay := 0 } else s) := by
  unfold onRumble
  split_ifs <;> simp

/-- A state in mid-countdown: queue non-empty (cursors 2 and 1), ack-delay
counter 3, outstanding rumble payload byte 9 under token 7. -/
def countdownState : DriverState :=
  { initState with
    rumble_sent := 2, rumble_recv := 1, rumble_delay := 3,
    rumble_token := 7, rumble_msg := fun i => if i = 0 then 9 else 0 }

/-- Claim C6 counterexample: from countdownState, the next poll cycle
decrements the counter to 2 and dequeues nothing, yet a rumble transfer IS
submitted to the transport, carrying the prior outstanding command's payload
and token — refuting "the prior outstanding command ... is not retried (not
re-submitted to the transport)". -/
theorem claim6_counterexample :
    (sendPollStep countdownState).1.rumble_delay = 2
    ∧ (sendPollStep countdownState).1.rumble_recv = 1
    ∧ ((sendPollStep countdownState).2.map RumbleSend.token) = some 7
    ∧ ((sendPollStep countdownState).2.map (fun r => r.payload 0)) = some 9 := by
  refine ⟨by decide, by decide, ?_, ?_⟩ <;>
    simp [sendPollStep, countdownState, initState]

/-- Claim C6 (amended): a rumble completion whose correlation token matches
the most recently issued token clears the ack-delay counter.  On a poll
cycle with a non-empty queue and a nonzero counter, the counter decrements by
exactly one, no new snapshot is dequeued, and the prior outstanding command's
payload and token are re-submitted to the transport unchanged.  Once the
counter reaches zero, the next poll cycle with a non-empty queue dequeues the
next entry (read cursor advances, a fresh token is generated, the counter is
reloaded with 3) and submits it; the abandoned command's payload is not
dequeued again. -/
theorem claim6_rumble_ack_delay (sA sB sC : DriverState) (tok : Nat) (r : Int)
    (hA : sA.rumble_token = tok)
    (hBq : sB.rumble_sent ≠ sB.rumble_recv) (hBd : sB.rumble_delay ≠ 0)
    (hCq : sC.rumble_sent ≠ sC.rumble_recv) (hCd : sC.rumble_delay = 0) :
    (onRumble r tok sA).rumble_delay = 0
    ∧ (sendPollStep sB).1.rumble_delay = sB.rumble_delay - 1
    ∧ (sendPollStep sB).1.rumble_recv = sB.rumble_recv
    ∧ (sendPollStep sB).1.rumble_msg = sB.rumble_msg
    ∧ (sendPollStep sB).1.rumble_token = sB.rumble_token
    ∧ (sendPollStep sB).2 = some ⟨sB.rumble_msg, sB.rumble_token⟩
    ∧ (sendPollStep sC).1.rumble_recv = (sC.rumble_recv + 1) % RUMBLE_BUFFER
    ∧ (sendPollStep sC).1.rumble_delay = RUMBLE_DELAY
    ∧ (sendPollStep sC).1.rumble_token = (sC.rumble_token + 1) % 256
    ∧ (sendPollStep sC).2
        = some ⟨(sendPollStep sC).1.rumble_msg, (sC.rumble_token + 1) % 256⟩
    ∧ (∀ i, i < 4 →
        (sendPollStep sC).1.rumble_msg i = sC.rumble_buffer sC.rumble_recv i) := by
  refine ⟨?_, ?_⟩
  · unfold onRumble
    rw [if_pos hA]
  · unfold sendPollStep
    rw [if_pos hBq, if_neg hBd, if_pos hCq, if_pos hCd]
    refine ⟨rfl, rfl, rfl, rfl, rfl, rfl, rfl, rfl, rfl, ?_⟩
    intro i hiw
    simp [hiw]

/-- A state waiting for a rumble acknowledgement under token 7. -/
def ackWaitState : DriverState :=
  { initState with rumble_token := 7, rumble_delay := 3 }

/-- A state mid-countdown with counter 2. -/
def midCountdownState : DriverState :=
  { initState with rumble_sent := 2, rumble_recv := 1, rumble_delay := 2 }

/-- A state whose countdown has expired with entries still queued. -/
def expiredDelayState : DriverState :=
  { initState with rumble_sent := 3, rumble_recv := 1, rumble_delay := 0 }

/-- Claim C6 witness: concrete instances of all three situations — a matching
completion clears the counter; a countdown cycle decrements and re-submits;
a counter-zero cycle dequeues the next entry. -/
theorem claim6_witness :
    (onRumble 0 7 ackWaitState).rumble_delay = 0
    ∧ (sendPollStep midCountdownState).1.rumble_delay = 2 - 1
    ∧ (sendPollStep expiredDelayState).1.rumble_recv = (1 + 1) % RUMBLE_BUFFER := by
  have h := claim6_rumble_ack_delay ackWaitState midCountdownState expiredDelayState
    7 0 (by decide) (by decide) (by decide) (by decide) (by decide)
  exact ⟨h.1, h.2.1, h.2.2.2.2.2.2.1⟩

/-- Version constants (main.c lines 247 and 365). -/
def DEV_USB_HID4_VERSION : Int := 0x00040001
def DEV_USB_HID5_VERSION : Nat := 0x00050001

/-- DEV_USB_HID5_DEVICE_CHANGE_SIZE (main.c line 354), in structures. -/
def DEV_USB_HID5_DEVICE_CHANGE_SIZE : Nat := 0x20

/-- One entry of the version-5 device-change list (main.c lines 369-373). -/
structure Hid5Device where
  id : Nat
  vid_pid : Nat

/-- onError (main.c lines 495-498).  Note the source order: the handle field
is set to -1 FIRST and IOS_CloseAsync is then invoked on the already
overwritten value, so the close is issued for -1, not for the previous
handle.  The second component is the fd passed to IOS_CloseAsync. -/
def onError (s : DriverState) : DriverState × Int :=
  ({ s with dev_usb_hid_fd := -1 }, -1)

/-- The C pattern "error = ret; errorMethod = k; onError();" shared by the
transport-fatal failure paths. -/
def failClose (k ret : Int) (s : DriverState) : DriverState × Option Int :=
  ((onError { s with error := ret, errorMethod := k }).1,
   some (onError { s with error := ret, errorMethod := k }).2)

/-- onDevOpen (main.c lines 505-524).  fd is the open's result; vRet models
the immediate return of the checkVersion submission issued when fd >= 0.  A
failure records error and stage 1 but, unlike the later stages, neither
invalidates nor closes the handle (there is no onError call here). -/
def onDevOpen (fd vRet : Int) (s : DriverState) : DriverState :=
  if (if 0 ≤ fd then vRet else fd) ≠ 0 then
    { s with
      dev_usb_hid_fd := fd, error := (if 0 ≤ fd then vRet else fd),
      errorMethod := 1 }
  else { s with dev_usb_hid_fd := fd }

/-- onDevGetVersion4 (main.c lines 532-551).  dcRet and v5Ret model the
immediate returns of the getDeviceChange4 and checkVersion5 submissions. -/
def onDevGetVersion4 (ret dcRet v5Ret : Int) (s : DriverState) :
    DriverState × Option Int :=
  if ret = DEV_USB_HID4_VERSION then
    (if dcRet ≠ 0 then failClose 2 dcRet { s with version := 4 }
     else ({ s with version := 4 }, none))
  else
    (if v5Ret ≠ 0 then failClose 2 v5Ret s else (s, none))

/-- onDevGetVersion5 (main.c lines 555-570).  buf0 is the version word the
transport wrote into dev_usb_hid5_buffer[0]. -/
def onDevGetVersion5 (ret : Int) (buf0 : Nat) (dcRet : Int) (s : DriverState) :
    DriverState × Option Int :=
  if ret = 0 ∧ buf0 = DEV_USB_HID5_VERSION then
    (if dcRet ≠ 0 then failClose 3 dcRet { s with version := 5 }
     else ({ s with version := 5 }, none))
  else
    (if (if ret = 0 then (buf0 : Int) else ret) ≠ 0 then
      failClose 3 (if ret = 0 then (buf0 : Int) else ret) s
     else (s, none))

/-- onDevUsbChange5 (main.c lines 603-612): a device-change completion just
chains into the attach-finish command; attRet models that submission's
immediate return. -/
def onDevUsbChange5 (ret attRet : Int) (s : DriverState) : DriverState × Option Int :=
  if (if 0 ≤ ret then attRet else ret) ≠ 0 then
    failClose 4 (if 0 ≤ ret then attRet else ret) s
  else (s, none)

/-- The device scan of onDevUsbChange4 (main.c lines 576-590): walk the
word array, each record starting with its byte length, until the index
passes 0x180 words or a record length at least the buffer's byte size is
found; a record matches when its length word is the descriptor size and its
fifth word is the adapter's vendor/product id; the match's second word is
the device id.  The C loop advances i by devices[i]/4 and so never
terminates on a record shorter than 4 bytes; the fuel argument caps the
recursion at one step per word, which is exact whenever every record length
is at least 4. -/
def scan4 (devices : Nat → Nat) : Nat → Nat → Option Nat
  | 0, _ => none
  | fuel + 1, i =>
    if i < DEV_USB_HID4_DEVICE_CHANGE_SIZE
        ∧ devices i < 4 * DEV_USB_HID4_DEVICE_CHANGE_SIZE then
      if devices i = WUP_028_DESCRIPTOR_SIZE ∧ devices (i + 4) = WUP_028_ID then
        some (devices (i + 1))
      else scan4 devices fuel (i + devices i / 4)
    else none

/-- The tail of onDevUsbChange4 and onDevUsbAttach5: re-issue the
device-change request (immediate return dcRet) and take the stage-5 error
exit if the submission fails. -/
def changeFinish (dcRet : Int) (s1 : DriverState) : DriverState × Option Int :=
  if dcRet ≠ 0 then failClose 5 dcRet s1 else (s1, none)

/-- onDevUsbChange4 (main.c lines 574-599).  A found device whose id differs
from the tracked identity is adopted (the init-report submission's return is
discarded by the C code); no match reverts the identity to (uint32_t)-1. -/
def onDevUsbChange4 (ret : Int) (devices : Nat → Nat) (dcRet : Int)
    (s : DriverState) : DriverState × Option Int :=
  if 0 ≤ ret then
    changeFinish dcRet
      (match scan4 devices (DEV_USB_HID4_DEVICE_CHANGE_SIZE + 1) 0 with
       | some id =>
          if s.gcn_adapter_id ≠ id then { s with gcn_adapter_id := id } else s
       | none => { s with gcn_adapter_id := 2 ^ 32 - 1 })
  else failClose 5 ret s

/-- The device scan of onDevUsbAttach5 (main.c lines 620-631): first entry in
list order, among the first min(count, 0x20), whose vid_pid matches. -/
def scan5 (devices5 : Nat → Hid5Device) (count : Nat) : Option Nat :=
  ((List.range (min count DEV_USB_HID5_DEVICE_CHANGE_SIZE)).find?
    (fun i => (devices5 i).vid_pid == WUP_028_ID)).map (fun i => (devices5 i).id)

/-- The identity-update step of onDevUsbAttach5: a new matching id is
adopted and the resume command submitted (immediate return resumeSubmitRet);
a failed resume submission clears found, so the identity reverts to -1; no
match reverts it as well. -/
def attachScan (devices5 : Nat → Hid5Device) (count : Nat) (resumeSubmitRet : Int)
    (s : DriverState) : DriverState :=
  match scan5 devices5 count with
  | some id =>
    if s.gcn_adapter_id ≠ id then
      (if resumeSubmitRet ≠ 0 then { s with gcn_adapter_id := 2 ^ 32 - 1 }
       else { s with gcn_adapter_id := id })
    else s
  | none => { s with gcn_adapter_id := 2 ^ 32 - 1 }

/-- onDevUsbAttach5 (main.c lines 616-641). -/
def onDevUsbAttach5 (ret : Int) (devices5 : Nat → Hid5Device) (count : Nat)
    (resumeSubmitRet dcRet : Int) (s : DriverState) : DriverState × Option Int :=
  if ret = 0 then changeFinish dcRet (attachScan devices5 count resumeSubmitRet s)
  else failClose 5 ret s

/-- onDevUsbResume5 (main.c lines 645-654): a failure at the resume stage
records error and stage 6 and reverts the identity, without closing. -/
def onDevUsbResume5 (ret pRet : Int) (s : DriverState) : DriverState :=
  if (if ret = 0 then pRet else ret) ≠ 0 then
    { s with
      error := (if ret = 0 then pRet else ret), errorMethod := 6,
      gcn_adapter_id := 2 ^ 32 - 1 }
  else s

/-- onDevUsbParams5 (main.c lines 658-692): same shape at stage 7; the
scratch-buffer words the C code fills are transport payload, not modelled
state. -/
def onDevUsbParams5 (ret initRet : Int) (s : DriverState) : DriverState :=
  if (if ret = 0 then initRet else ret) ≠ 0 then
    { s with
      error := (if ret = 0 then initRet else ret), errorMethod := 7,
      gcn_adapter_id := 2 ^ 32 - 1 }
  else s

/-- The tail of onDevUsbInit (main.c lines 744-753): run sendPoll and take
the stage-8 error exit if the poll submission fails. -/
def initFinish (pollSubmitRet : Int) (s1 : DriverState) :
    DriverState × Option RumbleSend :=
  if (sendPoll pollSubmitRet s1).2.2 ≠ 0 then
    ({ (sendPoll pollSubmitRet s1).1 with
       error := (sendPoll pollSubmitRet s1).2.2,
       errorMethod := 8, gcn_adapter_id := 2 ^ 32 - 1 },
     (sendPoll pollSubmitRet s1).2.1)
  else ((sendPoll pollSubmitRet s1).1, (sendPoll pollSubmitRet s1).2.1)

/-- onDevUsbInit (main.c lines 744-753). -/
def onDevUsbInit (ret pollSubmitRet : Int) (s : DriverState) :
    DriverState × Option RumbleSend :=
  if 0 ≤ ret then initFinish pollSubmitRet s
  else ({ s with error := ret, errorMethod := 8, gcn_adapter_id := 2 ^ 32 - 1 }, none)

/-- The tail of onDevUsbPoll (main.c lines 810-816): run sendPoll and take
the stage-9 error exit if the poll submission fails. -/
def pollFinish (pollSubmitRet : Int) (s1 : DriverState) :
    DriverState × Option RumbleSend :=
  if (sendPoll pollSubmitRet s1).2.2 ≠ 0 then
    ({ (sendPoll pollSubmitRet s1).1 with
       error := (sendPoll pollSubmitRet s1).2.2,
       errorMethod := 9, gcn_adapter_id := 2 ^ 32 - 1 },
     (sendPoll pollSubmitRet s1).2.1)
  else ((sendPoll pollSubmitRet s1).1, (sendPoll pollSubmitRet s1).2.1)

/-- onDevUsbPoll (main.c lines 755-817): on a successful completion the
payload is decoded only when its leading report-type byte is 0x21; a
mismatched type byte skips the entire decode, leaving all slot state and the
liveness stamp untouched; then the next poll is issued. -/
def onDevUsbPoll (ret : Int) (buf : Nat → Nat) (now : Nat) (pollSubmitRet : Int)
    (s : DriverState) : DriverState × Option RumbleSend :=
  if 0 ≤ ret then
    pollFinish pollSubmitRet (if buf 0 = 0x21 then pollUpdate buf now s else s)
  else ({ s with error := ret, errorMethod := 9, gcn_adapter_id := 2 ^ 32 - 1 }, none)

/-- The rumble-queue step of sendPoll touches only the rumble fields; every
slot record, origin, the liveness stamp, the handle, the identity and the
error fields pass through unchanged. -/
lemma sendPollStep_frame (s : DriverState) :
    (sendPollStep s).1.gcn_data = s.gcn_data
    ∧ (sendPollStep s).1.gcn_stick_origin = s.gcn_stick_origin
    ∧ (sendPollStep s).1.gcn_data_written = s.gcn_data_written
    ∧ (sendPollStep s).1.error = s.error
    ∧ (sendPollStep s).1.errorMethod = s.errorMethod
    ∧ (sendPollStep s).1.dev_usb_hid_fd = s.dev_usb_hid_fd
    ∧ (sendPollStep s).1.gcn_adapter_id = s.gcn_adapter_id := by
  unfold sendPollStep
  by_cases hq : s.rumble_sent ≠ s.rumble_recv
  · rw [if_pos hq]
    by_cases hd : s.rumble_delay = 0
    · rw [if_pos hd]
      exact ⟨rfl, rfl, rfl, rfl, rfl, rfl, rfl⟩
    · rw [if_neg hd]
      exact ⟨rfl, rfl, rfl, rfl, rfl, rfl, rfl⟩
  · rw [if_neg hq]
    exact ⟨rfl, rfl, rfl, rfl, rfl, rfl, rfl⟩

/-- Claim C8: a poll completion whose leading report-type byte is not 0x21
leaves every stored slot record, every calibration origin and the liveness
stamp unchanged, and a device-enumeration completion that finds no entry
matching the adapter's vendor/product identity only reverts the tracked
identity to the none sentinel (uint32_t)-1, leaving everything else — in
particular all slot state — unchanged.  The record-length hypothesis makes
the fuelled scan coincide with the C loop, which advances by
devices[i]/4 words. -/
theorem claim8_discard_and_enum (s : DriverState) (buf : Nat → Nat) (now : Nat)
    (psr ret retc : Int) (devices : Nat → Nat)
    (hbuf : buf 0 ≠ 0x21) (hret : 0 ≤ ret) (hretc : 0 ≤ retc)
    (hscan : scan4 devices (DEV_USB_HID4_DEVICE_CHANGE_SIZE + 1) 0 = none)
    (hrec : ∀ j, 4 ≤ devices j) :
    (onDevUsbPoll ret buf now psr s).1.gcn_data = s.gcn_data
    ∧ (onDevUsbPoll ret buf now psr s).1.gcn_stick_origin = s.gcn_stick_origin
    ∧ (onDevUsbPoll ret buf now psr s).1.gcn_data_written = s.gcn_data_written
    ∧ onDevUsbChange4 retc devices 0 s
        = ({ s with gcn_adapter_id := 2 ^ 32 - 1 }, none) := by
  refine ⟨?_, ?_, ?_, ?_⟩
  · unfold onDevUsbPoll
    rw [if_pos hret, if_neg hbuf]
    unfold pollFinish
    split_ifs with h
    · exact (sendPollStep_frame s).1
    · exact (sendPollStep_frame s).1
  · unfold onDevUsbPoll
    rw [if_pos hret, if_neg hbuf]
    unfold pollFinish
    split_ifs with h
    · exact (sendPollStep_frame s).2.1
    · exact (sendPollStep_frame s).2.1
  · unfold onDevUsbPoll
    rw [if_pos hret, if_neg hbuf]
    unfold pollFinish
    split_ifs with h
    · exact (sendPollStep_frame s).2.2.1
    · exact (sendPollStep_frame s).2.2.1
  · unfold onDevUsbChange4
    rw [if_pos hretc, hscan]
    rfl

set_option maxRecDepth 8000 in
/-- Claim C8 witness: concrete instance — a report with type byte 0x20 at a
started state, and a device list of empty 8-byte records that match
nothing. -/
theorem claim8_witness :
    (onDevUsbPoll 0 (fun _ => 0x20) 5 0 initState).1.gcn_data = initState.gcn_data
    ∧ onDevUsbChange4 0 (fun _ => 8) 0 initState
        = ({ initState with gcn_adapter_id := 2 ^ 32 - 1 }, none) := by
  have h := claim8_discard_and_enum initState (fun _ => 0x20) 5 0 0 0 (fun _ => 8)
    (by decide) (by decide) (by decide) (by decide) (fun j => by norm_num)
  exact ⟨h.1, h.2.2.2⟩

/-- Claim C7 counterexample: an open-stage failure (handle 5 opened, but the
version-probe submission immediately fails with -4) records error -4 and
stage ordinal 1 — yet the transport handle keeps the valid value 5: it is
neither marked invalid nor closed (onDevOpen contains no onError call), so
open-stage failures do not "mark the transport handle invalid and close
it". -/
theorem claim7_counterexample :
    (onDevOpen 5 (-4) initState).errorMethod = 1
    ∧ (onDevOpen 5 (-4) initState).error = -4
    ∧ (onDevOpen 5 (-4) initState).dev_usb_hid_fd = 5
    ∧ ¬((onDevOpen 5 (-4) initState).dev_usb_hid_fd = -1) := by decide

/-- Claim C7 (amended): every bring-up or polling stage failure records a
numeric error code and a stage ordinal observable by the polling interface.
Failures at the version-probe or enumerate stages (ordinals 2-5) mark the
transport handle invalid and issue a close — the close being issued on the
already-invalidated handle value -1, per the source order in onError.  A
failure at the open stage (ordinal 1) records error and stage but leaves the
handle holding the open's result without closing anything.  Failures at the
resume, params-read, init, or poll stages (ordinals 6-9) only reset the
tracked device identity to the none sentinel without touching or closing
the transport handle. -/
theorem claim7_error_taxonomy (s : DriverState)
    (fd vRet ret4 v5Ret ret5 retc5 retc4 reta5 rr rp ri rpoll psr : Int)
    (buf0 : Nat) (devices : Nat → Nat) (devices5 : Nat → Hid5Device)
    (count : Nat) (buf : Nat → Nat) (now : Nat)
    (hfd : 0 ≤ fd) (hv : vRet ≠ 0)
    (h4 : ret4 ≠ DEV_USB_HID4_VERSION) (h5r : v5Ret ≠ 0)
    (h5 : ret5 ≠ 0)
    (hc5 : retc5 < 0) (hc4 : retc4 < 0) (ha5 : reta5 ≠ 0)
    (hrr : rr ≠ 0) (hrp : rp ≠ 0) (hri : ri < 0) (hrpoll : rpoll < 0) :
    onDevOpen fd vRet s
        = { s with dev_usb_hid_fd := fd, error := vRet, errorMethod := 1 }
    ∧ onDevGetVersion4 ret4 0 v5Ret s
        = ({ s with error := v5Ret, errorMethod := 2, dev_usb_hid_fd := -1 },
           some (-1))
    ∧ onDevGetVersion5 ret5 buf0 0 s
        = ({ s with error := ret5, errorMethod := 3, dev_usb_hid_fd := -1 },
           some (-1))
    ∧ onDevUsbChange5 retc5 0 s
        = ({ s with error := retc5, errorMethod := 4, dev_usb_hid_fd := -1 },
           some (-1))
    ∧ onDevUsbChange4 retc4 devices 0 s
        = ({ s with error := retc4, errorMethod := 5, dev_usb_hid_fd := -1 },
           some (-1))
    ∧ onDevUsbAttach5 reta5 devices5 count 0 0 s
        = ({ s with error := reta5, errorMethod := 5, dev_usb_hid_fd := -1 },
           some (-1))
    ∧ onDevUsbResume5 rr 0 s
        = { s with error := rr, errorMethod := 6, gcn_adapter_id := 2 ^ 32 - 1 }
    ∧ onDevUsbParams5 rp 0 s
        = { s with error := rp, errorMethod := 7, gcn_adapter_id := 2 ^ 32 - 1 }
    ∧ onDevUsbInit ri psr s
        = ({ s with error := ri, errorMethod := 8, gcn_adapter_id := 2 ^ 32 - 1 },
           none)
    ∧ (onDevUsbPoll rpoll buf now psr s).1
        = { s with error := rpoll, errorMethod := 9, gcn_adapter_id := 2 ^ 32 - 1 } := by
  refine ⟨?_, ?_, ?_, ?_, ?_, ?_, ?_, ?_, ?_, ?_⟩
  · unfold onDevOpen
    rw [if_pos hfd, if_pos hv]
  · unfold onDevGetVersion4
    rw [if_neg h4, if_pos h5r]
    rfl
  · unfold onDevGetVersion5
    have hcond : ¬(ret5 = 0 ∧ buf0 = DEV_USB_HID5_VERSION) := fun h => h5 h.1
    rw [if_neg hcond, if_neg h5, if_pos h5]
    rfl
  · unfold onDevUsbChange5
    have hne : ¬(0 ≤ retc5) := not_le.mpr hc5
    rw [if_neg hne, if_pos (show retc5 ≠ 0 by omega)]
    rfl
  · unfold onDevUsbChange4
    rw [if_neg (not_le.mpr hc4)]
    rfl
  · unfold onDevUsbAttach5
    rw [if_neg (show ¬(reta5 = 0) from ha5)]
    rfl
  · unfold onDevUsbResume5
    rw [if_neg hrr, if_pos hrr]
  · unfold onDevUsbParams5
    rw [if_neg hrp, if_pos hrp]
  · unfold onDevUsbInit
    rw [if_neg (not_le.mpr hri)]
  · unfold onDevUsbPoll
    rw [if_neg (not_le.mpr hrpoll)]

/-- Claim C7 witness: concrete instances of the amended taxonomy — the
open-stage failure leaving the handle at 5, a version-probe failure closing
and invalidating, and a resume-stage failure that only reverts the
identity. -/
theorem claim7_witness :
    onDevOpen 5 (-4) initState
        = { initState with dev_usb_hid_fd := 5, error := -4, errorMethod := 1 }
    ∧ onDevGetVersion5 (-2) 0 0 initState
        = ({ initState with error := -2, errorMethod := 3, dev_usb_hid_fd := -1 },
           some (-1))
    ∧ onDevUsbResume5 (-3) 0 initState
        = { initState with
            error := -3, errorMethod := 6, gcn_adapter_id := 2 ^ 32 - 1 } := by
  have h := claim7_error_taxonomy initState 5 (-4) 0 (-4) (-2) (-1) (-1) (-1)
    (-3) (-3) (-1) (-1) 0 0 (fun _ => 8) (fun _ => ⟨0, 0⟩) 0 (fun _ => 0) 0
    (by decide) (by decide) (by decide) (by decide) (by decide) (by decide)
    (by decide) (by decide) (by decide) (by decide) (by decide) (by decide)
  exact ⟨h.1, h.2.2.1, h.2.2.2.2.2.2.1⟩

end Wup028

